import Mathlib

/-!
Verification of the obsidian-tmdb-actor-plugin core (provider.ts and
APIProvider/DataFormatter.ts).

The TypeScript source is shallowly embedded: strings are Lean `String`
(manipulated through their underlying `List Char`), JavaScript numbers that
carry fractional values (popularity scores) are `ℚ`, counts are `ℕ` or `ℤ`,
possibly-`undefined` values are `Option`, and the asynchronous fetch triple is
modelled by three `Except`-valued fetch outcomes joined the way `Promise.all`
joins them.  Each definition mirrors the function of the same name in the
source.
-/

namespace TMDBPlugin

/-! ### JavaScript string primitives used by the source -/

/-- Characters matched by JavaScript `\s` (the ones relevant to this code
base): space, tab, newline, carriage return, vertical tab, form feed and
no-break space. -/
def isJsSpace (c : Char) : Bool :=
  c = ' ' || c = '\t' || c = '\n' || c = '\r' || c = '\x0b' ||
    c = Char.ofNat 12 || c = Char.ofNat 160

/-- JavaScript `String.prototype.trim`: drop leading and trailing
whitespace. -/
def jsTrim (s : List Char) : List Char :=
  ((s.dropWhile isJsSpace).reverse.dropWhile isJsSpace).reverse

/-- JavaScript `String.prototype.toLowerCase`, restricted to the simple
per-character mapping (ASCII letters are all the code compares
case-insensitively). -/
def toLowerJs (s : List Char) : List Char :=
  s.map Char.toLower

/-- JavaScript `name.startsWith(query)`. -/
def jsStartsWith (s pre : List Char) : Bool :=
  List.isPrefixOf pre s

/-- JavaScript `name.includes(query)`: some suffix of `s` has `q` as a
prefix. -/
def jsIncludes (s q : List Char) : Bool :=
  match s with
  | [] => q.isEmpty
  | c :: t => List.isPrefixOf q (c :: t) || jsIncludes t q

/-- JavaScript `a || b` for a possibly-undefined string `a`: the empty string
and `undefined` are both falsy. -/
def jsOrS (a : Option String) (b : String) : String :=
  match a with
  | some s => if s = "" then b else s
  | none => b

/-- JavaScript `a || 0` for a possibly-undefined number `a` (`0` is falsy, so
the result is the same as defaulting to `0`). -/
def jsOrQ (a : Option ℚ) : ℚ :=
  a.getD 0

/-! ### Provider constants (provider.ts) -/

def MAX_SEARCH_RESULTS : Nat := 20

def IMAGE_BASE_URL : String := "https://image.tmdb.org/t/p/"

/-! ### Search scoring (provider.ts, `calculateRelevanceScore`) -/

/-- The fields of a raw `/search/person` result that the provider reads. -/
structure RawSearchItem where
  id : ℤ
  name : Option String
  known_for_department : Option String
  profile_path : Option String
  popularity : Option ℚ
  deriving DecidableEq

/-- provider.ts `calculateRelevanceScore`: the query is lower-cased and
trimmed, the candidate name only lower-cased; +1000 for an exact match, +500
when the name starts with the query, +250 when it contains the query (the
three bonuses are additive), plus twice the popularity. -/
def calculateRelevanceScore (item : RawSearchItem) (query : String) : ℚ :=
  let normalizedQuery := jsTrim (toLowerJs query.data)
  let name := toLowerJs (jsOrS item.name "").data
  (if name = normalizedQuery then (1000 : ℚ) else 0)
    + (if jsStartsWith name normalizedQuery then (500 : ℚ) else 0)
    + (if jsIncludes name normalizedQuery then (250 : ℚ) else 0)
    + jsOrQ item.popularity * 2

/-! ### Search pipeline (provider.ts, `searchByQuery`) -/

/-- An image URL pair (full-size and preview), the shape produced by
`extractBestImage` and used for posters in suggestion items. -/
structure ImagePair where
  url : String
  previewUrl : String
  deriving DecidableEq

/-- The suggestion shape returned to the search UI. -/
structure TMDBSuggestItem where
  id : ℤ
  name : String
  alternativeName : String
  type : String
  year : ℤ
  poster : Option ImagePair
  rating_tmdb : ℚ
  rating_imdb : ℚ
  deriving DecidableEq

/-- provider.ts `convertToSuggestItem`. -/
def convertToSuggestItem (item : RawSearchItem) : TMDBSuggestItem where
  id := item.id
  name := jsOrS item.name ""
  alternativeName := jsOrS item.known_for_department "Acting"
  type := "person"
  year := 0
  poster :=
    match item.profile_path with
    | some p =>
        if p = "" then none
        else some ⟨IMAGE_BASE_URL ++ "w500" ++ p, IMAGE_BASE_URL ++ "w185" ++ p⟩
    | none => none
  rating_tmdb := jsOrQ item.popularity
  rating_imdb := 0

/-- Insert an element into a list that is sorted by non-increasing score,
placing it after every element of score ≥ its own.  Folding this over the
input list gives exactly the stable descending sort that
`Array.prototype.sort((a, b) => b.score - a.score)` performs (a stable sort
under a total preorder has a unique result). -/
def insertScoredDesc {α : Type} (x : α × ℚ) : List (α × ℚ) → List (α × ℚ)
  | [] => [x]
  | y :: ys => if y.2 < x.2 then x :: y :: ys else y :: insertScoredDesc x ys

/-- Stable sort by non-increasing score, the semantics of the JavaScript
`sort((a, b) => b.score - a.score)` call in `searchByQuery`. -/
def sortByScoreDesc {α : Type} (l : List (α × ℚ)) : List (α × ℚ) :=
  l.foldl (fun acc x => insertScoredDesc x acc) []

/-- The scored list built by `searchByQuery` before sorting: each raw result
mapped to the suggestion shape paired with its relevance score. -/
def searchScored (results : List RawSearchItem) (query : String) :
    List (TMDBSuggestItem × ℚ) :=
  results.map fun item => (convertToSuggestItem item, calculateRelevanceScore item query)

/-- The scored list after the sort step of `searchByQuery`. -/
def searchRanked (results : List RawSearchItem) (query : String) :
    List (TMDBSuggestItem × ℚ) :=
  sortByScoreDesc (searchScored results query)

/-- The value `searchByQuery` returns when it does not throw: sort the scored
results, project the items, truncate to `MAX_SEARCH_RESULTS`. -/
def searchByQueryResults (results : List RawSearchItem) (query : String) :
    List TMDBSuggestItem :=
  ((searchRanked results query).map Prod.fst).take MAX_SEARCH_RESULTS

/-- Modelled from the spec: `ApiValidator.isValidSearchQuery` (the validator
source is not part of this tree).  The spec requires the query to be
non-empty after trimming and below a maximum length; the numeric bound is not
given, so the predicate keeps the non-emptiness condition the claims
quantify over. -/
def isValidSearchQuery (query : String) : Bool :=
  !(jsTrim query.data).isEmpty

/-- provider.ts `searchByQuery` (pure part): validate the query, rank the raw
results, and raise the typed "nothing found" error when the truncated list is
empty. -/
def searchByQuery (query : String) (results : List RawSearchItem) :
    Except String (List TMDBSuggestItem) :=
  if !isValidSearchQuery query then .error "provider.enterMovieTitle"
  else if (searchByQueryResults results query).isEmpty then
    .error "provider.nothingFound"
  else .ok (searchByQueryResults results query)

/-- Two concrete raw search results used to instantiate the ranking
theorem. -/
def demoSearchResults : List RawSearchItem :=
  [⟨1, some "Bruce Lee", some "Acting", none, some 30⟩,
    ⟨2, some "Lee", none, none, some 12⟩]

/-! ### Image selection (DataFormatter.ts, `buildImageUrl` and
`extractBestImage`) -/

/-- DataFormatter.ts `buildImageUrl`: substitute the size token into the
fixed base-URL pattern. -/
def buildImageUrl (path size : String) : String :=
  IMAGE_BASE_URL ++ size ++ path

/-- A candidate image as delivered by the API: a language tag (possibly
null) and a file path. -/
structure ImageEntry where
  iso_639_1 : Option String
  file_path : String
  deriving DecidableEq

/-- The URL pair `extractBestImage` builds for the selected entry
(`POSTER_ORIGINAL` for the full URL, `POSTER_W500` for the preview). -/
def mkBestImage (img : ImageEntry) : ImagePair :=
  ⟨buildImageUrl img.file_path "original", buildImageUrl img.file_path "w500"⟩

/-- DataFormatter.ts `extractBestImage`: empty input gives nothing; otherwise
the first entry tagged "ru", else the first entry tagged "en", else the first
entry of the list. -/
def extractBestImage (images : List ImageEntry) : Option ImagePair :=
  if images.isEmpty then none
  else
    match images.find? (fun img => decide (img.iso_639_1 = some "ru")) with
    | some ruImage => some (mkBestImage ruImage)
    | none =>
      match images.find? (fun img => decide (img.iso_639_1 = some "en")) with
      | some enImage => some (mkBestImage enImage)
      | none =>
        match images.head? with
        | some anyImage => some (mkBestImage anyImage)
        | none => none

/-- Concrete candidate list (fr, en, ru in source order) used to instantiate
the image-selection theorem. -/
def demoImages : List ImageEntry :=
  [⟨some "fr", "/f.png"⟩, ⟨some "en", "/e.png"⟩, ⟨some "ru", "/r.png"⟩]

/-! ### Credits classification (DataFormatter.ts,
`convertCreditsToPersons`) -/

/-- A cast entry of a credits payload (the fields the formatter reads). -/
structure CastEntry where
  id : ℤ
  name : String
  original_name : Option String
  profile_path : Option String
  deriving DecidableEq

/-- A crew entry of a credits payload (the fields the formatter reads). -/
structure CrewEntry where
  id : ℤ
  name : String
  original_name : Option String
  profile_path : Option String
  job : Option String
  department : Option String
  deriving DecidableEq

/-- A credits payload; the `cast`/`crew` arrays may be absent
(`credits.cast || []`). -/
structure Credits where
  cast : Option (List CastEntry)
  crew : Option (List CrewEntry)
  deriving DecidableEq

/-- An entry of the `persons` array the formatter produces. -/
structure TMDBPersonOut where
  id : ℤ
  name : String
  enName : String
  enProfession : String
  profession : String
  photo : Option String
  deriving DecidableEq

/-- DataFormatter.ts `PROFESSION_MAP`: the fixed job-title table, giving the
profession code and its localized label. -/
def PROFESSION_MAP (job : String) : Option (String × String) :=
  if job = "Director" then some ("director", "режиссер")
  else if job = "Writer" then some ("writer", "сценарист")
  else if job = "Screenplay" then some ("writer", "сценарист")
  else if job = "Producer" then some ("producer", "продюсер")
  else if job = "Executive Producer" then some ("producer", "продюсер")
  else none

/-- `person.profile_path ? buildImageUrl(..., PROFILE_W185) : undefined`. -/
def photoOf (profile_path : Option String) : Option String :=
  match profile_path with
  | some p => if p = "" then none else some (buildImageUrl p "w185")
  | none => none

/-- The person record pushed for a cast entry (profession "actor"). -/
def castToPerson (person : CastEntry) : TMDBPersonOut :=
  ⟨person.id, person.name, jsOrS person.original_name person.name, "actor",
    "актер", photoOf person.profile_path⟩

/-- The person record pushed for a crew entry, in the branch order of the
source: `if (!mapping && person.department === 'Writing')` push a writer,
`else if (mapping)` push the mapped profession, else push nothing. -/
def crewToPerson (person : CrewEntry) : Option TMDBPersonOut :=
  let mapping := (person.job.bind PROFESSION_MAP)
  if mapping.isNone && (person.department == some "Writing") then
    some ⟨person.id, person.name, jsOrS person.original_name person.name,
      "writer", "сценарист", photoOf person.profile_path⟩
  else
    match mapping with
    | some m =>
        some ⟨person.id, person.name, jsOrS person.original_name person.name,
          m.1, m.2, photoOf person.profile_path⟩
    | none => none

/-- DataFormatter.ts `convertCreditsToPersons`: the first 20 cast entries (in
source order) as actors, then every crew entry its classification keeps. -/
def convertCreditsToPersons (credits : Credits) : List TMDBPersonOut :=
  ((credits.cast.getD []).take 20).map castToPerson ++
    (credits.crew.getD []).filterMap crewToPerson

/-- The crew-classification precedence exactly as the claim words it: an
exact job-title match in `PROFESSION_MAP` wins; otherwise a crew entry of the
"Writing" department is a writer; otherwise the entry is dropped. -/
def classifyCrewSpec (person : CrewEntry) : Option TMDBPersonOut :=
  match person.job.bind PROFESSION_MAP with
  | some m =>
      some ⟨person.id, person.name, jsOrS person.original_name person.name,
        m.1, m.2, photoOf person.profile_path⟩
  | none =>
      if person.department == some "Writing" then
        some ⟨person.id, person.name, jsOrS person.original_name person.name,
          "writer", "сценарист", photoOf person.profile_path⟩
      else none

/-- Concrete credits payload used to instantiate the classification
theorem. -/
def demoCredits : Credits :=
  ⟨some [⟨7, "Al Pacino", some "Al Pacino", none⟩],
    some [⟨8, "Michael Mann", none, none, some "Director", some "Directing"⟩,
      ⟨9, "Jane Doe", none, none, some "Story Editor", some "Writing"⟩,
      ⟨10, "John Roe", none, none, some "Gaffer", some "Lighting"⟩]⟩

/-! ### Name filtering and deduplication (DataFormatter.ts,
`extractEnglishNamesOnly`, `areSimilarNames`, `combineNamesForAliases`) -/

/-- ASCII Latin letter (the `A-Za-z` ranges of the English-only pattern). -/
def isLatinLetter (c : Char) : Bool :=
  ('A' ≤ c && c ≤ 'Z') || ('a' ≤ c && c ≤ 'z')

/-- A character allowed by the English-only pattern
`^[A-Za-z\s\-\'\"\.\,\(\)]+$`. -/
def isAllowedEnglishChar (c : Char) : Bool :=
  isLatinLetter c || isJsSpace c || c = '-' || c = '\'' || c = '"' ||
    c = '.' || c = ',' || c = '(' || c = ')'

/-- `englishOnlyRegex.test(name.trim())`: non-empty after trimming and every
character allowed. -/
def englishOnlyTest (name : List Char) : Bool :=
  let t := jsTrim name
  !t.isEmpty && t.all isAllowedEnglishChar

/-- Replace every run of whitespace by a single space, the semantics of
`replace(/\s+/g, ' ')`.  The flag records whether the previous character was
part of a whitespace run. -/
def collapseWsAux : Bool → List Char → List Char
  | _, [] => []
  | prevSpace, c :: t =>
    if isJsSpace c then
      if prevSpace then collapseWsAux true t
      else ' ' :: collapseWsAux true t
    else c :: collapseWsAux false t

/-- `replace(/\s+/g, ' ')`. -/
def collapseWs (s : List Char) : List Char :=
  collapseWsAux false s

/-- A JavaScript word character (`\w`), determining `\b` boundaries. -/
def isWordChar (c : Char) : Bool :=
  isLatinLetter c || ('0' ≤ c && c ≤ '9') || c = '_'

/-- ASCII upper-case letter (the `[A-Z]` of the middle-initial pattern). -/
def isAsciiUpper (c : Char) : Bool :=
  'A' ≤ c && c ≤ 'Z'

/-- Left-to-right global replacement of `\b[A-Z]\.\s*` by the empty string:
at a word boundary, an upper-case letter followed by a period and any run of
whitespace is removed.  The fuel argument (at least the input length) makes
the recursion structural; the Bool records whether the previous character of
the original string is a word character (`\b` holds when it is not). -/
def removeInitialsAux : Nat → Bool → List Char → List Char
  | 0, _, s => s
  | _ + 1, _, [] => []
  | fuel + 1, prevWord, c :: t =>
    if !prevWord && isAsciiUpper c then
      match t with
      | '.' :: t2 => removeInitialsAux fuel false (t2.dropWhile isJsSpace)
      | _ => c :: removeInitialsAux fuel (isWordChar c) t
    else c :: removeInitialsAux fuel (isWordChar c) t

/-- `replace(/\b[A-Z]\.\s*/g, '')` (the start of the string is a word
boundary). -/
def removeInitials (s : List Char) : List Char :=
  removeInitialsAux (s.length + 1) false s

/-- The simplified comparison form built inside `extractEnglishNamesOnly`:
normalize spaces, strip middle initials, normalize spaces again, trim. -/
def baseNameOf (trimmedName : List Char) : List Char :=
  jsTrim (collapseWs (removeInitials (collapseWs trimmedName)))

/-- The normalization inside `areSimilarNames`: lower-case, collapse
whitespace, trim. -/
def normalizeName (name : List Char) : List Char :=
  jsTrim (collapseWs (toLowerJs name))

/-- DataFormatter.ts `areSimilarNames`: after normalization, one name is
contained in the other. -/
def areSimilarNames (name1 name2 : List Char) : Bool :=
  jsIncludes (normalizeName name1) (normalizeName name2) ||
    jsIncludes (normalizeName name2) (normalizeName name1)

/-- DataFormatter.ts `extractEnglishNamesOnly`: keep names that pass the
English-only test, then walk them in order, skipping any name whose
simplified form is similar to an already-processed one; the trimmed
original-cased form of each first-seen name is kept. -/
def extractEnglishNamesOnly (names : List String) : List String :=
  let englishNames := names.filter fun name => englishOnlyTest name.data
  (englishNames.foldl
    (fun acc name =>
      let trimmedName := jsTrim name.data
      let base := baseNameOf trimmedName
      if acc.2.any (fun processedName => areSimilarNames base processedName) then
        acc
      else (acc.1 ++ [String.mk trimmedName], acc.2 ++ [base]))
    (([], []) : List String × List (List Char))).1

/-- DataFormatter.ts `combineNamesForAliases`: start from the main names,
append each alias not similar to anything already collected, then drop
empty/blank names. -/
def combineNamesForAliases (mainNames alsoKnownAsNames : List String) :
    List String :=
  let combinedNames := alsoKnownAsNames.foldl
    (fun acc name =>
      if name = "" then acc
      else if acc.any (fun mainName =>
          if mainName = "" then false
          else areSimilarNames name.data mainName.data) then acc
      else acc ++ [name])
    mainNames
  combinedNames.filter fun name => name ≠ "" && !(jsTrim name.data).isEmpty

/-! ### Presentation formatting (DataFormatter.ts, `formatArray`,
`cleanTextForMetadata`) -/

def MAX_ARRAY_ITEMS : Nat := 50

/-- The array formatting modes of `formatArray`.  The id-keyed mode
(`link_id_with_path`) operates on `{name, id}` records rather than strings
and is not needed by the verified claims, so it is left out of the modelled
fragment. -/
inductive FormatType where
  | SHORT_VALUE
  | LONG_TEXT
  | URL
  | LINK
  | LINK_WITH_PATH
  deriving DecidableEq

/-- DataFormatter.ts `cleanTextForMetadata`: strip every colon, then trim
(empty input short-circuits to the empty string). -/
def cleanTextForMetadata (text : String) : String :=
  if text = "" then ""
  else String.mk (jsTrim (text.data.filter fun c => c != ':'))

/-- The long-text formatting of one item: newlines to spaces, whitespace
runs collapsed, trimmed, wrapped in double quotes. -/
def longTextFormat (item : String) : String :=
  "\"" ++
    String.mk
      (jsTrim (collapseWs (item.data.map fun c => if c = '\n' then ' ' else c)))
    ++ "\""

/-- The link formatting of one item: the cleaned text wrapped in the quoted
double-bracket cross-reference syntax. -/
def linkFormat (item : String) : String :=
  "\"[[" ++ cleanTextForMetadata item ++ "]]\""

/-- DataFormatter.ts `formatArray` on string inputs: drop items blank after
trimming, truncate to `maxItems`, then apply the per-mode mapping. -/
def formatArray (items : List String) (formatType : FormatType)
    (folderPath : Option String) (maxItems : Nat) : List String :=
  let filteredItems :=
    (items.filter fun item => !(jsTrim item.data).isEmpty).take maxItems
  match formatType with
  | .SHORT_VALUE => filteredItems.map cleanTextForMetadata
  | .LONG_TEXT => filteredItems.map longTextFormat
  | .URL => filteredItems.map fun item => String.mk (jsTrim item.data)
  | .LINK => filteredItems.map linkFormat
  | .LINK_WITH_PATH =>
      filteredItems.map fun item =>
        match folderPath with
        | some fp =>
            if !(jsTrim fp.data).isEmpty then
              "\"[[" ++ fp ++ "/" ++ cleanTextForMetadata item ++ "]]\""
            else linkFormat item
        | none => linkFormat item

/-! ### Seasons aggregation (DataFormatter.ts, `calculateSeasonsData` and the
`seasonsInfo` field of `convertTVShowToTMDBFormat`) -/

/-- A season summary of the canonical record. -/
structure SeasonInfo where
  number : ℤ
  episodesCount : ℕ
  deriving DecidableEq

/-- The aggregate `calculateSeasonsData` returns. -/
structure SeasonsData where
  count : ℕ
  averageEpisodesPerSeason : ℕ
  deriving DecidableEq

/-- DataFormatter.ts `calculateSeasonsData`: zero for a missing or empty
list, otherwise the season count and `Math.ceil(totalEpisodes / count)`
(written as the natural-number ceiling division). -/
def calculateSeasonsData (seasonsInfo : Option (List SeasonInfo)) :
    SeasonsData :=
  match seasonsInfo with
  | none => ⟨0, 0⟩
  | some [] => ⟨0, 0⟩
  | some l =>
    let totalEpisodes :=
      l.foldl (fun total season => total + season.episodesCount) 0
    ⟨l.length, (totalEpisodes + l.length - 1) / l.length⟩

/-- A raw season of a TV-show details payload. -/
structure TVSeason where
  season_number : ℤ
  episode_count : ℕ
  deriving DecidableEq

/-- The `seasonsInfo` field built by `convertTVShowToTMDBFormat`
(DataFormatter.ts lines 381-386): `(details.seasons || [])` filtered to
season numbers strictly above 0, mapped to season summaries, in source
order. -/
def convertTVShowSeasonsInfo (seasons : List TVSeason) : List SeasonInfo :=
  (seasons.filter fun s => decide (s.season_number > 0)).map
    fun s => (⟨s.season_number, s.episode_count⟩ : SeasonInfo)

/-! ### Canonical record and presentation projection (DataFormatter.ts,
`convertPersonToTMDBFormat` and `createMovieShowFrom`) -/

/-- The canonical record (`TMDBFullInfo`), restricted to the fields that the
verified claims read; every field mirrors the field of the same meaning in
the source. -/
structure TMDBFullInfo where
  id : ℤ
  name : String
  type : String
  year : ℤ
  description : Option String
  gender : Option ℤ
  premiere_world : Option String
  deathday : Option String
  knownForDepartment : Option String
  TMDBLink : Option String
  birthPlace : Option String
  deathPlace : Option String
  alsoKnownAs : List String
  hometown : Option String
  homepage : Option String
  slogan : Option String
  rating_tmdb : Option ℚ
  externalId_imdb : Option String
  poster : Option ImagePair
  backdrop : Option ImagePair
  seasonsInfo : Option (List SeasonInfo)
  deriving DecidableEq

/-- The presentation record (`MovieShow`), restricted to the fields the
verified claims read: the identity fields, the season aggregates, and the
complete person-specific block of `createMovieShowFrom`. -/
structure MovieShow where
  id : ℤ
  name : List String
  seasonsCount : ℕ
  seriesInSeasonCount : ℕ
  sex : List String
  spouses : List String
  birthday : List String
  death : List String
  growth : List String
  kinopoiskUrl : List String
  birthPlace : List String
  deathPlace : List String
  alsoKnownAs : List String
  biography : List String
  hometown : List String
  placeOfBirth : List String
  placeOfDeath : List String
  homepage : List String
  knownForDepartment : List String
  popularity : ℚ
  externalIds : List String
  allNames : List String
  deriving DecidableEq

/-- DataFormatter.ts `createMovieShowFrom`, restricted to the modelled
fields.  The person-specific block is the conditional spread of lines
720-759: populated from the canonical record when the kind is "person",
filled with formatted empty literals otherwise (except `allNames`, which the
non-person branch fills with the record's name).  The seasons aggregate is
computed once in the source; it is inlined here. -/
def createMovieShowFrom (fullInfo : TMDBFullInfo) : MovieShow :=
  if fullInfo.type = "person" then
    { id := fullInfo.id
      name := formatArray [fullInfo.name] .SHORT_VALUE none MAX_ARRAY_ITEMS
      seasonsCount := (calculateSeasonsData fullInfo.seasonsInfo).count
      seriesInSeasonCount :=
        (calculateSeasonsData fullInfo.seasonsInfo).averageEpisodesPerSeason
      sex := formatArray
        [if fullInfo.gender = some 1 then "Женский"
          else if fullInfo.gender = some 2 then "Мужской" else "Не указан"]
        .SHORT_VALUE none MAX_ARRAY_ITEMS
      spouses := formatArray [] .SHORT_VALUE none MAX_ARRAY_ITEMS
      birthday := formatArray [jsOrS fullInfo.premiere_world ""] .SHORT_VALUE
        none MAX_ARRAY_ITEMS
      death := formatArray [jsOrS fullInfo.deathday ""] .SHORT_VALUE none
        MAX_ARRAY_ITEMS
      growth := formatArray [jsOrS fullInfo.knownForDepartment ""]
        .SHORT_VALUE none MAX_ARRAY_ITEMS
      kinopoiskUrl := formatArray [jsOrS fullInfo.TMDBLink ""] .URL none
        MAX_ARRAY_ITEMS
      birthPlace := formatArray [jsOrS fullInfo.birthPlace ""] .SHORT_VALUE
        none MAX_ARRAY_ITEMS
      deathPlace := formatArray [jsOrS fullInfo.deathPlace ""] .SHORT_VALUE
        none MAX_ARRAY_ITEMS
      alsoKnownAs := formatArray (extractEnglishNamesOnly fullInfo.alsoKnownAs)
        .SHORT_VALUE none MAX_ARRAY_ITEMS
      biography := formatArray [jsOrS fullInfo.description ""] .LONG_TEXT none
        MAX_ARRAY_ITEMS
      hometown := formatArray
        [jsOrS fullInfo.hometown (jsOrS fullInfo.birthPlace "")] .SHORT_VALUE
        none MAX_ARRAY_ITEMS
      placeOfBirth := formatArray [jsOrS fullInfo.birthPlace ""] .SHORT_VALUE
        none MAX_ARRAY_ITEMS
      placeOfDeath := formatArray [jsOrS fullInfo.deathPlace ""] .SHORT_VALUE
        none MAX_ARRAY_ITEMS
      homepage := formatArray [jsOrS fullInfo.homepage ""] .URL none
        MAX_ARRAY_ITEMS
      knownForDepartment := formatArray
        [jsOrS fullInfo.slogan (jsOrS fullInfo.knownForDepartment "")]
        .SHORT_VALUE none MAX_ARRAY_ITEMS
      popularity := jsOrQ fullInfo.rating_tmdb
      externalIds := formatArray [jsOrS fullInfo.externalId_imdb ""]
        .SHORT_VALUE none MAX_ARRAY_ITEMS
      allNames := combineNamesForAliases [fullInfo.name]
        (extractEnglishNamesOnly fullInfo.alsoKnownAs) }
  else
    { id := fullInfo.id
      name := formatArray [fullInfo.name] .SHORT_VALUE none MAX_ARRAY_ITEMS
      seasonsCount := (calculateSeasonsData fullInfo.seasonsInfo).count
      seriesInSeasonCount :=
        (calculateSeasonsData fullInfo.seasonsInfo).averageEpisodesPerSeason
      sex := formatArray [""] .SHORT_VALUE none MAX_ARRAY_ITEMS
      spouses := formatArray [""] .SHORT_VALUE none MAX_ARRAY_ITEMS
      birthday := formatArray [""] .SHORT_VALUE none MAX_ARRAY_ITEMS
      death := formatArray [""] .SHORT_VALUE none MAX_ARRAY_ITEMS
      growth := formatArray [""] .SHORT_VALUE none MAX_ARRAY_ITEMS
      kinopoiskUrl := formatArray [""] .URL none MAX_ARRAY_ITEMS
      birthPlace := formatArray [""] .SHORT_VALUE none MAX_ARRAY_ITEMS
      deathPlace := formatArray [""] .SHORT_VALUE none MAX_ARRAY_ITEMS
      alsoKnownAs := formatArray [] .SHORT_VALUE none MAX_ARRAY_ITEMS
      biography := formatArray [""] .LONG_TEXT none MAX_ARRAY_ITEMS
      hometown := formatArray [""] .SHORT_VALUE none MAX_ARRAY_ITEMS
      placeOfBirth := formatArray [""] .SHORT_VALUE none MAX_ARRAY_ITEMS
      placeOfDeath := formatArray [""] .SHORT_VALUE none MAX_ARRAY_ITEMS
      homepage := formatArray [""] .URL none MAX_ARRAY_ITEMS
      knownForDepartment := formatArray [""] .SHORT_VALUE none MAX_ARRAY_ITEMS
      popularity := 0
      externalIds := formatArray [""] .SHORT_VALUE none MAX_ARRAY_ITEMS
      allNames := formatArray [fullInfo.name] .SHORT_VALUE none
        MAX_ARRAY_ITEMS }

/-- A concrete movie-kind canonical record. -/
def demoMovieInfo : TMDBFullInfo :=
  { id := 949, name := "Heat", type := "movie", year := 1995,
    description := none, gender := none, premiere_world := none,
    deathday := none, knownForDepartment := none, TMDBLink := none,
    birthPlace := none, deathPlace := none, alsoKnownAs := [],
    hometown := none, homepage := none, slogan := none, rating_tmdb := none,
    externalId_imdb := none, poster := none, backdrop := none,
    seasonsInfo := none }

/-! ### Person conversion and record fetch (DataFormatter.ts
`convertPersonToTMDBFormat`, provider.ts `getPersonDetails`,
`getMovieById`, `getAllImages`, `validateToken`) -/

/-- JavaScript `a || b` for two possibly-undefined strings. -/
def jsOrOpt (a b : Option String) : Option String :=
  match a with
  | some s => if s = "" then b else some s
  | none => b

/-- `parseInt` on the leading characters of a string: optional whitespace,
optional sign, then decimal digits; `none` models `NaN`. -/
def jsParseInt (s : List Char) : Option ℤ :=
  let t := s.dropWhile isJsSpace
  match t with
  | '-' :: rest =>
    let ds := rest.takeWhile Char.isDigit
    if ds.isEmpty then none
    else some (-(ds.foldl (fun n c => 10 * n + (c.toNat - '0'.toNat)) 0 : ℕ))
  | '+' :: rest =>
    let ds := rest.takeWhile Char.isDigit
    if ds.isEmpty then none
    else some ((ds.foldl (fun n c => 10 * n + (c.toNat - '0'.toNat)) 0 : ℕ))
  | _ =>
    let ds := t.takeWhile Char.isDigit
    if ds.isEmpty then none
    else some ((ds.foldl (fun n c => 10 * n + (c.toNat - '0'.toNat)) 0 : ℕ))

/-- The fields of a `/person/{id}` details payload that the converter
reads. -/
structure PersonDetails where
  id : ℤ
  name : Option String
  biography : Option String
  birthday : Option String
  deathday : Option String
  gender : Option ℤ
  place_of_birth : Option String
  death_place : Option String
  also_known_as : Option (List String)
  hometown : Option String
  homepage : Option String
  known_for_department : Option String
  imdb_id : Option String
  external_ids_imdb : Option String
  popularity : Option ℚ
  profile_path : Option String
  deriving DecidableEq

/-- One entry of a combined-credits payload (the fields the known-for
ranking reads). -/
structure CombinedCredit where
  id : ℤ
  popularity : Option ℚ
  vote_count : Option ℕ
  deriving DecidableEq

/-- A `/person/{id}/combined_credits` payload. -/
structure PersonCredits where
  cast : Option (List CombinedCredit)
  crew : Option (List CombinedCredit)
  deriving DecidableEq

/-- A `/person/{id}/images` payload. -/
structure PersonImages where
  profiles : Option (List ImageEntry)
  tagged_images : Option (List ImageEntry)
  deriving DecidableEq

/-- DataFormatter.ts `convertPersonToTMDBFormat`, restricted to the modelled
canonical fields.  The credits argument feeds only the known-for ranking
(`sequelsAndPrequels`), which lies outside the modelled fields, so it is
unused here. -/
def convertPersonToTMDBFormat (details : PersonDetails)
    (_credits : PersonCredits) (images : PersonImages) : TMDBFullInfo where
  id := details.id
  name := jsOrS details.name ""
  type := "person"
  year :=
    match details.birthday with
    | some d => if d = "" then 0 else (jsParseInt (d.data.take 4)).getD 0
    | none => 0
  description := some (jsOrS details.biography "")
  gender := details.gender
  premiere_world := details.birthday
  deathday := some (jsOrS details.deathday "")
  knownForDepartment := some (jsOrS details.known_for_department "")
  TMDBLink := some ("https://www.themoviedb.org/person/" ++ toString details.id)
  birthPlace := some (jsOrS details.place_of_birth "")
  deathPlace := some (jsOrS details.death_place "")
  alsoKnownAs := extractEnglishNamesOnly (details.also_known_as.getD [])
  hometown := some (jsOrS details.hometown (jsOrS details.place_of_birth ""))
  homepage := some (jsOrS details.homepage "")
  slogan := some (jsOrS details.known_for_department "Acting")
  rating_tmdb := some (jsOrQ details.popularity)
  externalId_imdb := jsOrOpt details.imdb_id details.external_ids_imdb
  poster :=
    if 0 < (images.profiles.getD []).length then
      extractBestImage (images.profiles.getD [])
    else
      match details.profile_path with
      | some p =>
          if p = "" then none
          else some ⟨buildImageUrl p "original", buildImageUrl p "w500"⟩
      | none => none
  backdrop :=
    if 0 < (images.tagged_images.getD []).length then
      extractBestImage (images.tagged_images.getD [])
    else none
  seasonsInfo := none

/-- The join performed by `Promise.all` over the three concurrent fetches:
all three outcomes are available independently, and any failure fails the
join (when several fail, the model propagates the first in argument
order). -/
def promiseAll3 {α β γ : Type} (a : Except String α) (b : Except String β)
    (c : Except String γ) : Except String (α × β × γ) :=
  match a with
  | .error e => .error e
  | .ok x =>
    match b with
    | .error e => .error e
    | .ok y =>
      match c with
      | .error e => .error e
      | .ok z => .ok (x, y, z)

/-- provider.ts `getPersonDetails`: join the three fetch outcomes and convert
the payload triple. -/
def getPersonDetails (detailsRes : Except String PersonDetails)
    (creditsRes : Except String PersonCredits)
    (imagesRes : Except String PersonImages) : Except String TMDBFullInfo :=
  (promiseAll3 detailsRes creditsRes imagesRes).map
    fun x => convertPersonToTMDBFormat x.1 x.2.1 x.2.2

/-- Modelled from the spec: `ApiValidator.isValidMovieId` (the validator
source is not part of this tree); the spec states it accepts exactly the
positive integers. -/
def isValidMovieId (id : ℤ) : Bool :=
  decide (0 < id)

/-- Modelled from the spec: `ApiValidator.isValidToken` (the validator
source is not part of this tree).  The spec requires a non-empty trimmed
token matching an expected credential shape; the length/character-class
details are not pinned down, so the predicate keeps the non-emptiness
condition. -/
def isValidToken (token : String) : Bool :=
  !(jsTrim token.data).isEmpty

/-- provider.ts `getMovieById`: validate the id and token, then fetch and
convert; any failure of the fetch triple fails the whole call. -/
def getMovieById (id : ℤ) (token : String)
    (detailsRes : Except String PersonDetails)
    (creditsRes : Except String PersonCredits)
    (imagesRes : Except String PersonImages) : Except String MovieShow :=
  if !isValidMovieId id then .error "provider.invalidMovieId"
  else if !isValidToken token then .error "provider.tokenRequiredForMovie"
  else (getPersonDetails detailsRes creditsRes imagesRes).map createMovieShowFrom

/-- An entry of the image buckets returned by `getAllImages`. -/
structure ImageInfo where
  url : String
  language : Option String
  deriving DecidableEq

/-- The bucket structure returned by `getAllImages`. -/
structure ImageBuckets where
  posters : List ImageInfo
  backdrops : List ImageInfo
  logos : List ImageInfo
  deriving DecidableEq

/-- The `extractImageData` helper inside `getAllImages`: build the
full-resolution URL for each entry, keep the language tag when truthy, and
drop entries whose URL is empty after trimming. -/
def extractImageData (imageArray : List ImageEntry) : List ImageInfo :=
  (imageArray.map fun img =>
      (⟨buildImageUrl img.file_path "original",
        match img.iso_639_1 with
        | some s => if s = "" then none else some s
        | none => none⟩ : ImageInfo)).filter
    fun img => !img.url.isEmpty && !(jsTrim img.url.data).isEmpty

/-- provider.ts `getAllImages`: on a successful fetch, profile images go to
the poster bucket, tagged images to the backdrop bucket, and the logo bucket
is empty; on any fetch failure, all three buckets are empty instead of the
error propagating. -/
def getAllImages (fetchResult : Except String PersonImages) : ImageBuckets :=
  match fetchResult with
  | .error _ => ⟨[], [], []⟩
  | .ok images =>
    ⟨extractImageData (images.profiles.getD []),
      extractImageData (images.tagged_images.getD []), []⟩

/-- provider.ts `validateToken`: false on an invalid token shape, true when
the probe request succeeds, false (never an error) when it fails. -/
def validateToken (token : String) (probe : Except String Unit) : Bool :=
  if !isValidToken token then false
  else
    match probe with
    | .ok _ => true
    | .error _ => false

/-- A concrete person-details payload. -/
def demoPersonDetails : PersonDetails :=
  ⟨287, some "Brad Pitt", none, none, none, none, none, none, none, none,
    none, none, none, none, none, none⟩

/-- A concrete images payload with both arrays absent. -/
def demoPersonImages : PersonImages :=
  ⟨none, none⟩

end TMDBPlugin

namespace TMDBPlugin

/-! ### Helper lemmas about the string primitives -/

theorem isPrefixOf_self (l : List Char) : List.isPrefixOf l l = true := by
  induction l with
  | nil => rfl
  | cons c t ih => simp [List.isPrefixOf, ih]

theorem jsIncludes_of_isPrefixOf {s q : List Char}
    (h : List.isPrefixOf q s = true) : jsIncludes s q = true := by
  cases s with
  | nil =>
    cases q with
    | nil => rfl
    | cons c t => simp [List.isPrefixOf] at h
  | cons c t => simp [jsIncludes, h]

theorem jsIncludes_self (l : List Char) : jsIncludes l l = true :=
  jsIncludes_of_isPrefixOf (isPrefixOf_self l)

/-- Claim C2: an exact case-folded name match scores strictly higher than a
result whose name only starts with or contains the query, as long as the
popularity difference is below 375 (the scoring is +1000 exact, +500
starts-with, +250 contains, all additive, plus 2 × popularity), so the exact
match ranks above the other result in the score-descending order. -/
theorem calculateRelevanceScore_exact_beats_partial
    (a b : RawSearchItem) (query : String)
    (ha : toLowerJs (jsOrS a.name "").data = jsTrim (toLowerJs query.data))
    (hb : toLowerJs (jsOrS b.name "").data ≠ jsTrim (toLowerJs query.data))
    (honlyNear :
      jsStartsWith (toLowerJs (jsOrS b.name "").data)
          (jsTrim (toLowerJs query.data)) = true ∨
        jsIncludes (toLowerJs (jsOrS b.name "").data)
          (jsTrim (toLowerJs query.data)) = true)
    (hpop : |jsOrQ a.popularity - jsOrQ b.popularity| < 375) :
    calculateRelevanceScore b query < calculateRelevanceScore a query := by
  have hgap : jsOrQ b.popularity - jsOrQ a.popularity < 375 := by
    have h1 : -(375 : ℚ) < jsOrQ a.popularity - jsOrQ b.popularity :=
      neg_lt_of_abs_lt hpop
    linarith
  have hstart : ∀ l : List Char, jsStartsWith l l = true := fun l =>
    isPrefixOf_self l
  simp only [calculateRelevanceScore]
  rw [ha, if_pos rfl, if_pos (hstart _), if_pos (jsIncludes_self _),
    if_neg hb]
  rcases hs : jsStartsWith (toLowerJs (jsOrS b.name "").data)
      (jsTrim (toLowerJs query.data)) with _ | _ <;>
    rcases hi : jsIncludes (toLowerJs (jsOrS b.name "").data)
        (jsTrim (toLowerJs query.data)) with _ | _ <;>
    simp only [hs, hi, if_true, if_false, Bool.false_eq_true, ite_true,
      ite_false] <;>
    linarith

/-- Concrete instance of the exact-match-outranks theorem: query " ABC ",
an exact match with popularity 10 against a starts-with match with
popularity 300. -/
theorem calculateRelevanceScore_exact_beats_partial_witness :
    calculateRelevanceScore ⟨2, some "abcdef", none, none, some 300⟩ " ABC " <
      calculateRelevanceScore ⟨1, some "Abc", none, none, some 10⟩ " ABC " := by
  apply calculateRelevanceScore_exact_beats_partial
  · decide
  · decide
  · left; decide
  · norm_num [jsOrQ]

/-! ### Stable descending sort lemmas -/

theorem mem_insertScoredDesc {α : Type} (x z : α × ℚ) :
    ∀ l : List (α × ℚ), z ∈ insertScoredDesc x l ↔ z = x ∨ z ∈ l
  | [] => by simp [insertScoredDesc]
  | y :: ys => by
      by_cases hc : y.2 < x.2
      · simp [insertScoredDesc, hc]
      · simp only [insertScoredDesc, if_neg hc, List.mem_cons,
          mem_insertScoredDesc x z ys]
        tauto

theorem pairwise_insertScoredDesc {α : Type} (x : α × ℚ) :
    ∀ l : List (α × ℚ), l.Pairwise (fun a b => b.2 ≤ a.2) →
      (insertScoredDesc x l).Pairwise (fun a b => b.2 ≤ a.2)
  | [], _ => by simp [insertScoredDesc]
  | y :: ys, hl => by
      rcases List.pairwise_cons.mp hl with ⟨hy, hys⟩
      by_cases hc : y.2 < x.2
      · rw [insertScoredDesc, if_pos hc]
        refine List.pairwise_cons.mpr ⟨?_, hl⟩
        intro z hz
        rcases List.mem_cons.mp hz with hzy | hzys
        · exact hzy ▸ le_of_lt hc
        · exact le_trans (hy z hzys) (le_of_lt hc)
      · rw [insertScoredDesc, if_neg hc]
        refine List.pairwise_cons.mpr ⟨?_, pairwise_insertScoredDesc x ys hys⟩
        intro z hz
        rcases (mem_insertScoredDesc x z ys).mp hz with hzx | hzys
        · exact hzx ▸ le_of_not_lt hc
        · exact hy z hzys

theorem pairwise_foldl_insertScoredDesc {α : Type} :
    ∀ (l acc : List (α × ℚ)), acc.Pairwise (fun a b => b.2 ≤ a.2) →
      (l.foldl (fun acc x => insertScoredDesc x acc) acc).Pairwise
        (fun a b => b.2 ≤ a.2)
  | [], _, hacc => hacc
  | x :: l, acc, hacc =>
      pairwise_foldl_insertScoredDesc l (insertScoredDesc x acc)
        (pairwise_insertScoredDesc x acc hacc)

theorem filter_insertScoredDesc {α : Type} (x : α × ℚ) (s : ℚ) :
    ∀ l : List (α × ℚ), l.Pairwise (fun a b => b.2 ≤ a.2) →
      (insertScoredDesc x l).filter (fun pr => decide (pr.2 = s)) =
        if x.2 = s then
          l.filter (fun pr => decide (pr.2 = s)) ++ [x]
        else l.filter (fun pr => decide (pr.2 = s))
  | [], _ => by
      by_cases hx : x.2 = s <;> simp [insertScoredDesc, hx]
  | y :: ys, hl => by
      rcases List.pairwise_cons.mp hl with ⟨hy, hys⟩
      by_cases hc : y.2 < x.2
      · rw [insertScoredDesc, if_pos hc]
        by_cases hx : x.2 = s
        · have hnil : (y :: ys).filter (fun pr => decide (pr.2 = s)) = [] := by
            refine List.filter_eq_nil_iff.mpr ?_
            intro z hz
            have hzlt : z.2 < x.2 := by
              rcases List.mem_cons.mp hz with hzy | hzys
              · exact hzy ▸ hc
              · exact lt_of_le_of_lt (hy z hzys) hc
            simp only [decide_eq_true_eq]
            intro hzs
            exact absurd (hx ▸ hzs : z.2 = x.2) (ne_of_lt hzlt)
          rw [if_pos hx, hnil, List.filter_cons, if_pos (by simpa using hx),
            hnil]
          rfl
        · rw [if_neg hx, List.filter_cons, if_neg (by simpa using hx)]
      · rw [insertScoredDesc, if_neg hc]
        have ih := filter_insertScoredDesc x s ys hys
        by_cases hx : x.2 = s <;> by_cases hyx : y.2 = s <;>
          simp [List.filter_cons, hx, hyx, ih]

theorem filter_foldl_insertScoredDesc {α : Type} (s : ℚ) :
    ∀ (l acc : List (α × ℚ)), acc.Pairwise (fun a b => b.2 ≤ a.2) →
      (l.foldl (fun acc x => insertScoredDesc x acc) acc).filter
          (fun pr => decide (pr.2 = s)) =
        acc.filter (fun pr => decide (pr.2 = s)) ++
          l.filter (fun pr => decide (pr.2 = s))
  | [], acc, _ => by simp
  | x :: l, acc, hacc => by
      have ih := filter_foldl_insertScoredDesc s l (insertScoredDesc x acc)
        (pairwise_insertScoredDesc x acc hacc)
      rw [List.foldl_cons, ih, filter_insertScoredDesc x s acc hacc,
        List.filter_cons]
      by_cases hx : x.2 = s
      · rw [if_pos hx, if_pos (by simpa using hx), List.append_assoc]
        simp
      · rw [if_neg hx, if_neg (by simpa using hx)]

/-- Claim C1: for a valid (non-empty) query, the search pipeline produces a
list sorted by non-increasing relevance score, preserves the original API
order among results of equal score (stability, phrased as: restricting the
ranked list to any fixed score gives exactly the corresponding restriction of
the original scored list), and returns at most `MAX_SEARCH_RESULTS` (20)
suggestions; `searchByQuery` returns exactly that truncated list unless it is
empty. -/
theorem searchByQuery_sorted_stable_truncated (query : String)
    (results : List RawSearchItem) (hq : isValidSearchQuery query = true) :
    (searchRanked results query).Pairwise (fun a b => b.2 ≤ a.2) ∧
    (∀ s : ℚ,
      (searchRanked results query).filter (fun pr => decide (pr.2 = s)) =
        (searchScored results query).filter (fun pr => decide (pr.2 = s))) ∧
    (searchByQueryResults results query).length ≤ MAX_SEARCH_RESULTS ∧
    searchByQuery query results =
      (if (searchByQueryResults results query).isEmpty then
        .error "provider.nothingFound"
      else .ok (searchByQueryResults results query)) := by
  refine ⟨?_, ?_, ?_, ?_⟩
  · exact pairwise_foldl_insertScoredDesc _ _ List.Pairwise.nil
  · intro s
    simpa using
      filter_foldl_insertScoredDesc s (searchScored results query) []
        List.Pairwise.nil
  · simp [searchByQueryResults]
  · simp [searchByQuery, hq]

/-! ### Credits classification -/

theorem crewToPerson_eq_classifyCrewSpec (person : CrewEntry) :
    crewToPerson person = classifyCrewSpec person := by
  unfold crewToPerson classifyCrewSpec
  cases hm : person.job.bind PROFESSION_MAP with
  | some m => simp
  | none =>
    cases hd : person.department == some "Writing" <;> simp [hd]

/-- Claim C3: `convertCreditsToPersons` turns the first 20 cast entries (in
source order) into persons with profession "actor", and classifies each crew
entry with the precedence: exact job-title match in the fixed table first,
then the "Writing"-department fallback to writer, otherwise the entry is
dropped. -/
theorem convertCreditsToPersons_classification (credits : Credits) :
    convertCreditsToPersons credits =
      ((credits.cast.getD []).take 20).map castToPerson ++
        (credits.crew.getD []).filterMap classifyCrewSpec ∧
    ∀ person ∈ (credits.cast.getD []).take 20,
      (castToPerson person).enProfession = "actor" := by
  constructor
  · unfold convertCreditsToPersons
    rw [funext crewToPerson_eq_classifyCrewSpec]
  · intro person _
    rfl

/-- Concrete instance of the classification theorem: one cast entry, a
Director, a Writing-department crew member with an unmapped job, and a
dropped crew member. -/
theorem convertCreditsToPersons_classification_witness :
    convertCreditsToPersons demoCredits =
      ((demoCredits.cast.getD []).take 20).map castToPerson ++
        (demoCredits.crew.getD []).filterMap classifyCrewSpec :=
  (convertCreditsToPersons_classification demoCredits).1

/-! ### Image selection -/

/-- Claim C4: `extractBestImage` returns nothing exactly on the empty list,
prefers the first "ru"-tagged entry, then the first "en"-tagged entry, then
the first entry in source order, and builds the full-resolution and
medium-resolution URLs by substituting the size token into the fixed
base-URL pattern. -/
theorem extractBestImage_language_priority (images : List ImageEntry) :
    (extractBestImage images = none ↔ images = []) ∧
    ((∃ i ∈ images, i.iso_639_1 = some "ru") →
      extractBestImage images =
        (images.find? (fun img => decide (img.iso_639_1 = some "ru"))).map
          mkBestImage) ∧
    ((∀ i ∈ images, i.iso_639_1 ≠ some "ru") →
      (∃ i ∈ images, i.iso_639_1 = some "en") →
      extractBestImage images =
        (images.find? (fun img => decide (img.iso_639_1 = some "en"))).map
          mkBestImage) ∧
    ((∀ i ∈ images, i.iso_639_1 ≠ some "ru" ∧ i.iso_639_1 ≠ some "en") →
      extractBestImage images = images.head?.map mkBestImage) ∧
    (∀ img : ImageEntry,
      mkBestImage img =
        ⟨IMAGE_BASE_URL ++ "original" ++ img.file_path,
          IMAGE_BASE_URL ++ "w500" ++ img.file_path⟩) := by
  refine ⟨⟨?_, ?_⟩, ?_, ?_, ?_, fun img => rfl⟩
  · intro h
    cases images with
    | nil => rfl
    | cons a t =>
      exfalso
      unfold extractBestImage at h
      simp only [List.isEmpty_cons, Bool.false_eq_true, if_false] at h
      cases hru : (a :: t).find? (fun img => decide (img.iso_639_1 = some "ru")) with
      | some r => rw [hru] at h; cases h
      | none =>
        rw [hru] at h
        cases hen : (a :: t).find? (fun img => decide (img.iso_639_1 = some "en")) with
        | some e => rw [hen] at h; cases h
        | none => rw [hen] at h; cases h
  · rintro rfl
    rfl
  · rintro ⟨i, hi, hiso⟩
    cases images with
    | nil => cases hi
    | cons a t =>
      unfold extractBestImage
      simp only [List.isEmpty_cons, Bool.false_eq_true, if_false]
      cases hru : (a :: t).find? (fun img => decide (img.iso_639_1 = some "ru")) with
      | some r => simp
      | none =>
        exfalso
        have := List.find?_eq_none.mp hru i hi
        simp [hiso] at this
  · intro hnoru ⟨i, hi, hiso⟩
    cases images with
    | nil => cases hi
    | cons a t =>
      unfold extractBestImage
      simp only [List.isEmpty_cons, Bool.false_eq_true, if_false]
      have hru : (a :: t).find? (fun img => decide (img.iso_639_1 = some "ru")) = none := by
        refine List.find?_eq_none.mpr ?_
        intro x hx
        simpa using hnoru x hx
      rw [hru]
      cases hen : (a :: t).find? (fun img => decide (img.iso_639_1 = some "en")) with
      | some e => simp
      | none =>
        exfalso
        have := List.find?_eq_none.mp hen i hi
        simp [hiso] at this
  · intro hnone
    cases images with
    | nil => rfl
    | cons a t =>
      unfold extractBestImage
      simp only [List.isEmpty_cons, Bool.false_eq_true, if_false]
      have hru : (a :: t).find? (fun img => decide (img.iso_639_1 = some "ru")) = none := by
        refine List.find?_eq_none.mpr ?_
        intro x hx
        simpa using (hnone x hx).1
      have hen : (a :: t).find? (fun img => decide (img.iso_639_1 = some "en")) = none := by
        refine List.find?_eq_none.mpr ?_
        intro x hx
        simpa using (hnone x hx).2
      rw [hru, hen]
      rfl

/-- Concrete instance of the image-selection theorem: with entries tagged fr,
en, ru in source order, the ru entry is selected. -/
theorem extractBestImage_language_priority_witness :
    extractBestImage demoImages = some (mkBestImage ⟨some "ru", "/r.png"⟩) := by
  have h := (extractBestImage_language_priority demoImages).2.1
    ⟨⟨some "ru", "/r.png"⟩, by simp [demoImages], rfl⟩
  rw [h]
  rfl

/-! ### Name deduplication -/

/-- Claim C5: on the list ["Lynn A. Freedman", "Lynn Freedman",
"Линн Фридман"], `extractEnglishNamesOnly` drops the non-Latin name, folds
the middle-initial variant into the first-seen name, and keeps the
first-seen original-cased form. -/
theorem extractEnglishNamesOnly_example :
    extractEnglishNamesOnly
        ["Lynn A. Freedman", "Lynn Freedman", "Линн Фридман"] =
      ["Lynn A. Freedman"] := by
  decide

/-- Concrete instance of the search-ranking theorem at a two-element result
list. -/
theorem searchByQuery_sorted_stable_truncated_witness :
    (searchRanked demoSearchResults " Lee ").Pairwise (fun a b => b.2 ≤ a.2) ∧
    (searchByQueryResults demoSearchResults " Lee ").length ≤
      MAX_SEARCH_RESULTS :=
  ⟨(searchByQuery_sorted_stable_truncated " Lee " demoSearchResults
      (by decide)).1,
    (searchByQuery_sorted_stable_truncated " Lee " demoSearchResults
      (by decide)).2.2.1⟩

/-! ### Short-mode formatting -/

/-- Counterexample to claim C8 as stated: an input entry consisting only of a
colon survives the blank filter (it is non-blank before cleaning), is then
cleaned to the empty string, and so produces an empty output entry — the
short-mode output is not free of empty strings. -/
theorem formatArray_short_colon_counterexample :
    formatArray [":"] FormatType.SHORT_VALUE none MAX_ARRAY_ITEMS = [""] ∧
    ¬(∀ x ∈ formatArray [":"] FormatType.SHORT_VALUE none MAX_ARRAY_ITEMS,
        x ≠ "") := by
  constructor
  · decide
  · decide

/-- Claim C8 (amended): the short mode first drops the strings that are blank
after trimming, then caps the list, and only then cleans each survivor by
stripping colons and trimming; consequently every output element is the
cleaned form of some input element that was non-blank before cleaning (the
cleaned form itself may be empty). -/
theorem formatArray_short_amended (items : List String) (maxItems : Nat) :
    formatArray items .SHORT_VALUE none maxItems =
      ((items.filter fun item => !(jsTrim item.data).isEmpty).take
          maxItems).map cleanTextForMetadata ∧
    ∀ x ∈ formatArray items .SHORT_VALUE none maxItems,
      ∃ y ∈ items, !(jsTrim y.data).isEmpty ∧ x = cleanTextForMetadata y := by
  constructor
  · rfl
  · intro x hx
    unfold formatArray at hx
    rcases List.mem_map.mp hx with ⟨y, hy, rfl⟩
    rcases List.mem_filter.mp (List.take_subset _ _ hy) with ⟨hmem, hcond⟩
    exact ⟨y, hmem, hcond, rfl⟩

/-- Concrete instance of the amended short-mode theorem. -/
theorem formatArray_short_amended_witness :
    ∃ y ∈ ["a b"], !(jsTrim y.data).isEmpty ∧
      "a b" = cleanTextForMetadata y :=
  (formatArray_short_amended ["a b"] MAX_ARRAY_ITEMS).2 "a b" (by decide)

/-! ### Kind-gated person block -/

/-- Counterexample to claim C9 as stated: `allNames` belongs to the
person-specific conditional block of `createMovieShowFrom`, yet for a
movie-kind record it is filled with the record's name, not with an empty
sentinel. -/
theorem createMovieShowFrom_allNames_counterexample :
    demoMovieInfo.type = "movie" ∧
    (createMovieShowFrom demoMovieInfo).allNames = ["Heat"] ∧
    (createMovieShowFrom demoMovieInfo).allNames ≠ [] := by
  refine ⟨rfl, by decide, by decide⟩

/-- Claim C9 (amended): for a canonical record whose kind is not person,
every person-only field of the presentation projection except `allNames`
holds its declared empty sentinel (empty list, or 0 for `popularity`), and
`allNames` instead holds the short-formatted primary name; the output schema
shape is constant across kinds by construction of the record type. -/
theorem createMovieShowFrom_person_sentinels (fullInfo : TMDBFullInfo)
    (h : fullInfo.type ≠ "person") :
    (createMovieShowFrom fullInfo).sex = [] ∧
    (createMovieShowFrom fullInfo).spouses = [] ∧
    (createMovieShowFrom fullInfo).birthday = [] ∧
    (createMovieShowFrom fullInfo).death = [] ∧
    (createMovieShowFrom fullInfo).growth = [] ∧
    (createMovieShowFrom fullInfo).kinopoiskUrl = [] ∧
    (createMovieShowFrom fullInfo).birthPlace = [] ∧
    (createMovieShowFrom fullInfo).deathPlace = [] ∧
    (createMovieShowFrom fullInfo).alsoKnownAs = [] ∧
    (createMovieShowFrom fullInfo).biography = [] ∧
    (createMovieShowFrom fullInfo).hometown = [] ∧
    (createMovieShowFrom fullInfo).placeOfBirth = [] ∧
    (createMovieShowFrom fullInfo).placeOfDeath = [] ∧
    (createMovieShowFrom fullInfo).homepage = [] ∧
    (createMovieShowFrom fullInfo).knownForDepartment = [] ∧
    (createMovieShowFrom fullInfo).popularity = 0 ∧
    (createMovieShowFrom fullInfo).externalIds = [] ∧
    (createMovieShowFrom fullInfo).allNames =
      formatArray [fullInfo.name] .SHORT_VALUE none MAX_ARRAY_ITEMS := by
  unfold createMovieShowFrom
  rw [if_neg h]
  exact ⟨rfl, rfl, rfl, rfl, rfl, rfl, rfl, rfl, rfl, rfl, rfl, rfl, rfl,
    rfl, rfl, rfl, rfl, rfl⟩

/-- Concrete instance of the sentinel theorem at a movie-kind record. -/
theorem createMovieShowFrom_person_sentinels_witness :
    (createMovieShowFrom demoMovieInfo).sex = [] ∧
    (createMovieShowFrom demoMovieInfo).popularity = 0 ∧
    (createMovieShowFrom demoMovieInfo).allNames =
      formatArray [demoMovieInfo.name] .SHORT_VALUE none MAX_ARRAY_ITEMS := by
  have h := createMovieShowFrom_person_sentinels demoMovieInfo (by decide)
  exact ⟨h.1, h.2.2.2.2.2.2.2.2.2.2.2.2.2.2.2.1,
    h.2.2.2.2.2.2.2.2.2.2.2.2.2.2.2.2.2⟩

/-! ### Season filtering -/

/-- Claim C10: the season summaries contain exactly the seasons numbered
strictly above 0, in source order; a season numbered 0 can be removed from
anywhere in the seasons array without changing the summaries, and therefore
without changing the season count or the average-episodes aggregate. -/
theorem convertTVShowSeasonsInfo_excludes_specials (l1 l2 : List TVSeason)
    (s0 : TVSeason) (h : s0.season_number = 0) :
    convertTVShowSeasonsInfo (l1 ++ s0 :: l2) =
      convertTVShowSeasonsInfo (l1 ++ l2) ∧
    (∀ e ∈ convertTVShowSeasonsInfo (l1 ++ l2), 0 < e.number) ∧
    calculateSeasonsData (some (convertTVShowSeasonsInfo (l1 ++ s0 :: l2))) =
      calculateSeasonsData (some (convertTVShowSeasonsInfo (l1 ++ l2))) ∧
    convertTVShowSeasonsInfo (l1 ++ l2) =
      ((l1 ++ l2).filter fun s => decide (s.season_number > 0)).map
        fun s => (⟨s.season_number, s.episode_count⟩ : SeasonInfo) := by
  have h1 : convertTVShowSeasonsInfo (l1 ++ s0 :: l2) =
      convertTVShowSeasonsInfo (l1 ++ l2) := by
    unfold convertTVShowSeasonsInfo
    rw [List.filter_append, List.filter_append, List.filter_cons]
    simp [h]
  refine ⟨h1, ?_, by rw [h1], rfl⟩
  intro e he
  unfold convertTVShowSeasonsInfo at he
  rcases List.mem_map.mp he with ⟨s, hs, rfl⟩
  simpa using (List.mem_filter.mp hs).2

/-- Concrete instance of the specials-exclusion theorem: a specials season
inserted before season 1 does not appear. -/
theorem convertTVShowSeasonsInfo_excludes_specials_witness :
    convertTVShowSeasonsInfo
        ([] ++ (⟨0, 3⟩ : TVSeason) :: [(⟨1, 10⟩ : TVSeason)]) =
      convertTVShowSeasonsInfo ([] ++ [(⟨1, 10⟩ : TVSeason)]) :=
  (convertTVShowSeasonsInfo_excludes_specials [] [⟨1, 10⟩] ⟨0, 3⟩ rfl).1

/-! ### Record fetch error propagation -/

/-- Claim C6: the three record fetches are joined as independent outcomes the
way `Promise.all` joins them, and a failing credits fetch with succeeding
details and images fetches fails both `getPersonDetails` and the whole
`getMovieById` call with that error — no partial record is returned. -/
theorem getMovieById_fails_on_credits_failure (id : ℤ) (token : String)
    (d : PersonDetails) (i : PersonImages) (e : String)
    (hid : isValidMovieId id = true) (htok : isValidToken token = true) :
    getMovieById id token (.ok d) (.error e) (.ok i) = .error e ∧
    getPersonDetails (.ok d) (.error e) (.ok i) = .error e := by
  refine ⟨?_, rfl⟩
  simp [getMovieById, hid, htok, getPersonDetails, promiseAll3, Except.map]

/-- Concrete instance of the credits-failure theorem. -/
theorem getMovieById_fails_on_credits_failure_witness :
    getMovieById 287 "token123" (.ok demoPersonDetails)
        (.error "UpstreamFailure") (.ok demoPersonImages) =
      .error "UpstreamFailure" :=
  (getMovieById_fails_on_credits_failure 287 "token123" demoPersonDetails
      demoPersonImages "UpstreamFailure" (by decide) (by decide)).1

/-! ### Best-effort degradation -/

/-- Claim C7: a fetch failure makes `getAllImages` return the all-empty
bucket structure and makes `validateToken` return false; both are total
functions into plain values, so neither ever surfaces the upstream error. -/
theorem getAllImages_validateToken_degrade (e : String) (token : String) :
    getAllImages (.error e) = ⟨[], [], []⟩ ∧
    validateToken token (.error e) = false := by
  refine ⟨rfl, ?_⟩
  rcases htok : isValidToken token with _ | _ <;> simp [validateToken, htok]

/-- Concrete instance of the degradation theorem. -/
theorem getAllImages_validateToken_degrade_witness :
    getAllImages (.error "boom") = ⟨[], [], []⟩ ∧
    validateToken "token123" (.error "boom") = false :=
  getAllImages_validateToken_degrade "boom" "token123"

end TMDBPlugin
